import Mathlib

/-!
Verification of the calculator repository (calculator_v2): the Calculator
class in calculator.py and the FastAPI boundary in main.py. Numbers are
modelled as exact rationals; the claims under verification concern the
string-keyed dispatch, error handling and response shaping, none of which
depends on floating-point rounding.
-/

/-- Errors raised by the calculator: `ZeroDivisionError` and `ValueError`
from calculator.py, each carrying its message string. -/
inductive CalcError where
  | divisionByZero (msg : String)
  | unsupportedOperation (msg : String)
  deriving DecidableEq

/-- One character of Python's `str.lower()` restricted to ASCII: an
uppercase latin letter (code 65-90) is shifted by 32, anything else is
unchanged. -/
def lowerChar (c : Char) : Char :=
  if 65 ≤ c.toNat ∧ c.toNat ≤ 90 then Char.ofNat (c.toNat + 32) else c

/-- Python's `operation.lower()` from calculator.py, applied characterwise. -/
def lowerStr (s : String) : String :=
  ⟨s.data.map lowerChar⟩

/-- The arithmetic engine: holds the operation dictionary built in
`Calculator.__init__`, an insertion-ordered map from operation name to the
bound arithmetic method. -/
structure Calculator where
  ops : List (String × (ℚ → ℚ → Except CalcError ℚ))

/-- `Calculator.add`: returns the sum of the operands. -/
def Calculator.add (a b : ℚ) : Except CalcError ℚ :=
  .ok (a + b)

/-- `Calculator.subtract`: returns the difference of the operands. -/
def Calculator.subtract (a b : ℚ) : Except CalcError ℚ :=
  .ok (a - b)

/-- `Calculator.multiply`: returns the product of the operands. -/
def Calculator.multiply (a b : ℚ) : Except CalcError ℚ :=
  .ok (a * b)

/-- `Calculator.divide`: raises `ZeroDivisionError("Cannot divide by zero")`
when the denominator is zero, otherwise returns the quotient. -/
def Calculator.divide (a b : ℚ) : Except CalcError ℚ :=
  if b = 0 then .error (.divisionByZero "Cannot divide by zero")
  else .ok (a / b)

/-- `Calculator.__init__`: builds the operation dictionary mapping the four
keys, in declaration order, to the four arithmetic methods. -/
def Calculator.init : Calculator :=
  { ops := [("add", Calculator.add), ("subtract", Calculator.subtract),
            ("multiply", Calculator.multiply), ("divide", Calculator.divide)] }

/-- `Calculator.calculate`: lowercases the operation name, looks it up in
the operation dictionary, raises `ValueError` with the unsupported-operation
message when absent, and otherwise dispatches to the mapped method. -/
def Calculator.calculate (c : Calculator) (operation : String)
    (num1 num2 : ℚ) : Except CalcError ℚ :=
  let op := lowerStr operation
  match c.ops.lookup op with
  | some f => f num1 num2
  | none => .error (.unsupportedOperation
      ("Unsupported operation: " ++ op ++ ". Supported operations: " ++
        String.intercalate ", " (c.ops.map Prod.fst)))

/-- `Calculator.get_supported_operations`: the keys of the operation
dictionary, in insertion order. -/
def Calculator.get_supported_operations (c : Calculator) : List String :=
  c.ops.map Prod.fst

/-- The module-level `calculator = Calculator()` instance from main.py. -/
def calculator : Calculator :=
  Calculator.init

/-- The four canonical operation keys, in dictionary declaration order. -/
def opKeys : List String :=
  ["add", "subtract", "multiply", "divide"]

/-- The `ValueError` message `calculate` raises for an unsupported
operation key `op`, as formatted by its f-string. -/
def unsupportedMsg (op : String) : String :=
  "Unsupported operation: " ++ op ++ ". Supported operations: " ++
    String.intercalate ", " opKeys

/-- The `OperationType` string enum from main.py: the four members and
their string values. -/
inductive OperationType where
  | ADD | SUBTRACT | MULTIPLY | DIVIDE
  deriving DecidableEq

/-- `OperationType.value`: the string value of each enum member. -/
def OperationType.value : OperationType → String
  | .ADD => "add"
  | .SUBTRACT => "subtract"
  | .MULTIPLY => "multiply"
  | .DIVIDE => "divide"

/-- Modelled from the spec: the Pydantic boundary validation of the
`operation` field of `CalculationRequest` (main.py constrains it to the
`OperationType` enum; the framework code performing the coercion is not in
the repository). A string is accepted exactly when it equals one of the
four member values, else the request is rejected before the handler runs. -/
def OperationType.ofString : String → Option OperationType := fun s =>
  if s = "add" then some .ADD
  else if s = "subtract" then some .SUBTRACT
  else if s = "multiply" then some .MULTIPLY
  else if s = "divide" then some .DIVIDE
  else none

/-- An HTTP response of the `/calculate` route: a 200 `CalculationResponse`
with the echoed operation, echoed operands and result; an `HTTPException`
with a status code and detail message; or the 422 validation rejection
Pydantic produces before the handler runs (its detail text is
framework-generated and not modelled). -/
inductive HttpResponse where
  | success (operation : String) (num1 num2 result : ℚ)
  | httpError (status : Nat) (detail : String)
  | validationError
  deriving DecidableEq

/-- The HTTP status code of a response: 200 for a `CalculationResponse`,
the stored code for an `HTTPException`, 422 for a Pydantic rejection. -/
def HttpResponse.status : HttpResponse → Nat
  | .success _ _ _ _ => 200
  | .httpError s _ => s
  | .validationError => 422

/-- The `/calculate` handler body from main.py: calls
`calculator.calculate` with the enum value and the operands, wraps a
successful result in a `CalculationResponse` echoing the request fields,
and converts `ZeroDivisionError` and `ValueError` to `HTTPException 400`
with the error message as detail. -/
def calculateEndpoint (op : OperationType) (num1 num2 : ℚ) : HttpResponse :=
  match calculator.calculate op.value num1 num2 with
  | .ok result => .success op.value num1 num2 result
  | .error (.divisionByZero m) => .httpError 400 m
  | .error (.unsupportedOperation m) => .httpError 400 m

/-- End-to-end `POST /calculate` on a raw operation string: Pydantic
validation of the `operation` field first, then the handler. -/
def postCalculate (operation : String) (num1 num2 : ℚ) : HttpResponse :=
  match OperationType.ofString operation with
  | some op => calculateEndpoint op num1 num2
  | none => .validationError

/-- `calculate` as a state-passing method call: the returned instance is
the receiver, whose body performs no assignment to `self._operations`. -/
def Calculator.calculateM (c : Calculator) (operation : String)
    (a b : ℚ) : Calculator × Except CalcError ℚ :=
  (c, c.calculate operation a b)

/-- `get_supported_operations` as a state-passing method call. -/
def Calculator.getSupportedOperationsM (c : Calculator) :
    Calculator × List String :=
  (c, c.get_supported_operations)

/-- The four arithmetic methods as state-passing method calls: none of
their bodies touches `self`. -/
def Calculator.addM (c : Calculator) (a b : ℚ) :
    Calculator × Except CalcError ℚ :=
  (c, Calculator.add a b)

/-- `subtract` as a state-passing method call. -/
def Calculator.subtractM (c : Calculator) (a b : ℚ) :
    Calculator × Except CalcError ℚ :=
  (c, Calculator.subtract a b)

/-- `multiply` as a state-passing method call. -/
def Calculator.multiplyM (c : Calculator) (a b : ℚ) :
    Calculator × Except CalcError ℚ :=
  (c, Calculator.multiply a b)

/-- `divide` as a state-passing method call. -/
def Calculator.divideM (c : Calculator) (a b : ℚ) :
    Calculator × Except CalcError ℚ :=
  (c, Calculator.divide a b)

/-- Evaluating `Char.ofNat` at a valid codepoint recovers the codepoint. -/
theorem toNat_ofNat_of_valid {n : Nat} (h : n.isValidChar) :
    (Char.ofNat n).toNat = n := by
  rw [Char.ofNat, dif_pos h]
  rfl

/-- Lowercasing an ASCII uppercase letter shifts its codepoint by 32. -/
theorem lowerChar_toNat_of_upper {c : Char}
    (h : 65 ≤ c.toNat ∧ c.toNat ≤ 90) :
    (lowerChar c).toNat = c.toNat + 32 := by
  rw [lowerChar, if_pos h]
  exact toNat_ofNat_of_valid (Or.inl (by omega))

/-- Lowercasing a character that is not ASCII uppercase is the identity. -/
theorem lowerChar_eq_self_of_not_upper {c : Char}
    (h : ¬(65 ≤ c.toNat ∧ c.toNat ≤ 90)) : lowerChar c = c := by
  rw [lowerChar, if_neg h]

/-- The output of `lowerChar` is never an ASCII uppercase letter. -/
theorem lowerChar_not_upper (c : Char) :
    ¬(65 ≤ (lowerChar c).toNat ∧ (lowerChar c).toNat ≤ 90) := by
  by_cases h : 65 ≤ c.toNat ∧ c.toNat ≤ 90
  · rw [lowerChar_toNat_of_upper h]
    omega
  · rw [lowerChar_eq_self_of_not_upper h]
    exact h

/-- `lowerChar` is idempotent. -/
theorem lowerChar_idem (c : Char) : lowerChar (lowerChar c) = lowerChar c :=
  lowerChar_eq_self_of_not_upper (lowerChar_not_upper c)

/-- `lowerStr` is idempotent, as Python's `str.lower` is. -/
theorem lowerStr_idem (s : String) : lowerStr (lowerStr s) = lowerStr s := by
  show String.mk ((s.data.map lowerChar).map lowerChar)
      = String.mk (s.data.map lowerChar)
  rw [List.map_map]
  exact congrArg String.mk
    (List.map_congr_left fun c _ => lowerChar_idem c)

/-- The character list of a concatenation is the concatenation of the
character lists. -/
theorem data_append_eq (s t : String) : (s ++ t).data = s.data ++ t.data :=
  rfl

/-- Does the first character list start the second? -/
def startsWithList : List Char → List Char → Bool
  | [], _ => true
  | _ :: _, [] => false
  | a :: as, b :: bs => a == b && startsWithList as bs

/-- Does the first character list occur contiguously inside the second? -/
def hasSubList (needle : List Char) : List Char → Bool
  | [] => startsWithList needle []
  | c :: cs => startsWithList needle (c :: cs) || hasSubList needle cs

/-- A list starts any extension of itself. -/
theorem startsWithList_self_append (n r : List Char) :
    startsWithList n (n ++ r) = true := by
  induction n with
  | nil => rfl
  | cons a as ih => simp [startsWithList, ih]

/-- A list occurs at the front of any extension of itself. -/
theorem hasSubList_self_append (n r : List Char) :
    hasSubList n (n ++ r) = true := by
  cases n with
  | nil =>
    cases r with
    | nil => rfl
    | cons c cs => simp [hasSubList, startsWithList]
  | cons a as =>
    have h1 : startsWithList (a :: as) (a :: (as ++ r)) = true := by
      simpa using startsWithList_self_append (a :: as) r
    simp [hasSubList, h1]

/-- An occurrence survives prepending to the haystack. -/
theorem hasSubList_of_right (n l rest : List Char)
    (h : hasSubList n rest = true) : hasSubList n (l ++ rest) = true := by
  induction l with
  | nil => simpa using h
  | cons c cs ih => simp [hasSubList, ih]

/-- Looking up a key outside the four canonical ones in the calculator
dictionary fails. -/
theorem calculator_lookup_none {k : String} (h : k ∉ opKeys) :
    calculator.ops.lookup k = none := by
  simp only [opKeys, List.mem_cons, List.not_mem_nil, or_false, not_or] at h
  obtain ⟨h1, h2, h3, h4⟩ := h
  have b1 : (k == "add") = false := beq_eq_false_iff_ne.mpr h1
  have b2 : (k == "subtract") = false := beq_eq_false_iff_ne.mpr h2
  have b3 : (k == "multiply") = false := beq_eq_false_iff_ne.mpr h3
  have b4 : (k == "divide") = false := beq_eq_false_iff_ne.mpr h4
  simp [calculator, Calculator.init, List.lookup, b1, b2, b3, b4]

/-- `calculate` on an unrecognized key raises `ValueError` with the
formatted message. -/
theorem calculate_unsupported_eq (s : String) (a b : ℚ)
    (h : lowerStr s ∉ opKeys) :
    calculator.calculate s a b =
      .error (.unsupportedOperation (unsupportedMsg (lowerStr s))) := by
  simp only [Calculator.calculate, calculator_lookup_none h]
  rfl

deriving instance DecidableEq for Except

/-- Claim C1: for every pair of operands a and b, calculate with key
"add" returns a + b, with "subtract" returns a - b, and with "multiply"
returns a * b. -/
theorem calculate_add_subtract_multiply_spec (a b : ℚ) :
    calculator.calculate "add" a b = .ok (a + b) ∧
    calculator.calculate "subtract" a b = .ok (a - b) ∧
    calculator.calculate "multiply" a b = .ok (a * b) :=
  ⟨rfl, rfl, rfl⟩

/-- Claim C2: for every a and every b different from 0, calculate with key
"divide" succeeds with the quotient a / b. -/
theorem calculate_divide_nonzero_spec (a b : ℚ) (h : b ≠ 0) :
    calculator.calculate "divide" a b = .ok (a / b) := by
  show Calculator.divide a b = .ok (a / b)
  rw [Calculator.divide, if_neg h]

/-- Witness for claim C2 at a = 10, b = 5: the quotient is 2. -/
theorem calculate_divide_nonzero_spec_witness :
    (5 : ℚ) ≠ 0 ∧ calculator.calculate "divide" 10 5 = .ok (10 / 5) :=
  ⟨by norm_num, calculate_divide_nonzero_spec 10 5 (by norm_num)⟩

/-- Claim C3: for every a, calculate with key "divide" and denominator 0
fails with the `ZeroDivisionError` whose message is "Cannot divide by
zero", returning no result. -/
theorem calculate_divide_zero_spec (a : ℚ) :
    calculator.calculate "divide" a 0 =
      .error (.divisionByZero "Cannot divide by zero") := by
  show Calculator.divide a 0 = _
  rw [Calculator.divide, if_pos rfl]

/-- Claim C4: for every operation string whose lowercasing is not one of
the four keys, calculate fails with the `ValueError` whose message carries
the (canonicalized) invalid key and lists the four valid keys. -/
theorem calculate_unsupported_spec (s : String) (a b : ℚ)
    (h : lowerStr s ∉ opKeys) :
    calculator.calculate s a b =
      .error (.unsupportedOperation (unsupportedMsg (lowerStr s))) ∧
    hasSubList (lowerStr s).data (unsupportedMsg (lowerStr s)).data = true ∧
    ∀ k ∈ opKeys,
      hasSubList k.data (unsupportedMsg (lowerStr s)).data = true := by
  refine ⟨calculate_unsupported_eq s a b h, ?_, ?_⟩
  · have hd : (unsupportedMsg (lowerStr s)).data =
        "Unsupported operation: ".data ++ ((lowerStr s).data ++
          (". Supported operations: ".data ++
            (String.intercalate ", " opKeys).data)) := by
      simp [unsupportedMsg, data_append_eq, List.append_assoc]
    rw [hd]
    exact hasSubList_of_right _ _ _ (hasSubList_self_append _ _)
  · intro k hk
    have hd : (unsupportedMsg (lowerStr s)).data =
        ("Unsupported operation: ".data ++ ((lowerStr s).data ++
          ". Supported operations: ".data)) ++
          (String.intercalate ", " opKeys).data := by
      simp [unsupportedMsg, data_append_eq, List.append_assoc]
    rw [hd]
    refine hasSubList_of_right _ _ _ ?_
    fin_cases hk <;> decide

/-- Witness for claim C4 at the unrecognized key "power". -/
theorem calculate_unsupported_spec_witness :
    lowerStr "power" ∉ opKeys ∧
    (calculator.calculate "power" 2 3 =
        .error (.unsupportedOperation (unsupportedMsg (lowerStr "power"))) ∧
      hasSubList (lowerStr "power").data
        (unsupportedMsg (lowerStr "power")).data = true ∧
      ∀ k ∈ opKeys,
        hasSubList k.data (unsupportedMsg (lowerStr "power")).data = true) :=
  ⟨by decide, calculate_unsupported_spec "power" 2 3 (by decide)⟩

/-- Claim C5: calculate is case-insensitive in its operation argument —
every call agrees with the call on the lowercased key — and in particular
"ADD" and "add" both map 2 and 3 to 5. -/
theorem calculate_case_insensitive (s : String) (a b : ℚ) :
    calculator.calculate s a b = calculator.calculate (lowerStr s) a b ∧
    calculator.calculate "ADD" 2 3 = .ok 5 ∧
    calculator.calculate "add" 2 3 = .ok 5 ∧
    calculator.calculate "ADD" 2 3 = calculator.calculate "add" 2 3 := by
  refine ⟨?_, ?_, ?_, rfl⟩
  · simp only [Calculator.calculate, lowerStr_idem]
  · show Calculator.add 2 3 = .ok 5
    rw [Calculator.add]
    norm_num
  · show Calculator.add 2 3 = .ok 5
    rw [Calculator.add]
    norm_num

/-- Claim C6: get_supported_operations returns exactly the four keys in
declaration order. -/
theorem get_supported_operations_spec :
    calculator.get_supported_operations =
      ["add", "subtract", "multiply", "divide"] :=
  rfl

/-- Claim C7, counterexample: the end-to-end request with operation
"power" does not produce an HTTP 400 response — its status is 422, the
Pydantic validation rejection. -/
theorem post_calculate_power_counterexample :
    (postCalculate "power" 2 3).status = 422 ∧
    ¬(postCalculate "power" 2 3).status = 400 := by
  exact ⟨rfl, by decide⟩

/-- Claim C7, amended: the end-to-end request with operation "power" is
rejected by the Pydantic enum validation before the handler runs, yielding
the 422 validation response; no "Unsupported operation: power" message is
produced by the route. -/
theorem post_calculate_power_amended :
    postCalculate "power" 2 3 = .validationError ∧
    (postCalculate "power" 2 3).status = 422 :=
  ⟨rfl, rfl⟩

/-- Claim C8: whenever the engine succeeds on a validated operation, the
handler returns the 200 response echoing the operation value and both
operands unchanged, with the engine's result. -/
theorem calculate_endpoint_success (op : OperationType) (a b r : ℚ)
    (h : calculator.calculate op.value a b = .ok r) :
    calculateEndpoint op a b = .success op.value a b r := by
  unfold calculateEndpoint
  rw [h]

/-- Witness for claim C8: the add request on 10 and 5 yields the response
echoing "add", 10 and 5, with result 15. -/
theorem calculate_endpoint_success_witness :
    calculator.calculate (OperationType.ADD).value 10 5 = .ok 15 ∧
    calculateEndpoint .ADD 10 5 = .success "add" 10 5 15 := by
  have h : calculator.calculate (OperationType.ADD).value 10 5 = .ok 15 := by
    show Calculator.add 10 5 = .ok 15
    rw [Calculator.add]
    norm_num
  exact ⟨h, calculate_endpoint_success .ADD 10 5 15 h⟩

/-- Claim C9: the operation dictionary is immutable after construction —
calculate, get_supported_operations and the four arithmetic methods all
return the receiver unchanged, so repeating a call on the resulting
instance repeats the outcome. -/
theorem calculator_state_immutable (c : Calculator) (s : String)
    (a b : ℚ) :
    (c.calculateM s a b).1 = c ∧
    c.getSupportedOperationsM.1 = c ∧
    (c.addM a b).1 = c ∧
    (c.subtractM a b).1 = c ∧
    (c.multiplyM a b).1 = c ∧
    (c.divideM a b).1 = c ∧
    ((c.calculateM s a b).1.calculateM s a b).2 = (c.calculateM s a b).2 ∧
    ((c.calculateM s a b).1.getSupportedOperationsM).2 =
      c.getSupportedOperationsM.2 :=
  ⟨rfl, rfl, rfl, rfl, rfl, rfl, rfl, rfl⟩

/-- Claim C10: the unsupported-operation message reports the lowercased
form of the operation argument: the error message is formatted around the
lowercased key, it contains the lowercased key, and concretely for "POWER"
the message contains "power" but not "POWER". -/
theorem calculate_unsupported_lowercases_spec (s : String) (a b : ℚ)
    (h : lowerStr s ∉ opKeys) :
    calculator.calculate s a b =
      .error (.unsupportedOperation (unsupportedMsg (lowerStr s))) ∧
    hasSubList (lowerStr s).data (unsupportedMsg (lowerStr s)).data = true ∧
    hasSubList "power".data
      (unsupportedMsg (lowerStr "POWER")).data = true ∧
    hasSubList "POWER".data
      (unsupportedMsg (lowerStr "POWER")).data = false := by
  refine ⟨calculate_unsupported_eq s a b h, ?_, by decide, by decide⟩
  have hd : (unsupportedMsg (lowerStr s)).data =
      "Unsupported operation: ".data ++ ((lowerStr s).data ++
        (". Supported operations: ".data ++
          (String.intercalate ", " opKeys).data)) := by
    simp [unsupportedMsg, data_append_eq, List.append_assoc]
  rw [hd]
  exact hasSubList_of_right _ _ _ (hasSubList_self_append _ _)

/-- Witness for claim C10 at the uppercase unrecognized key "POWER". -/
theorem calculate_unsupported_lowercases_spec_witness :
    lowerStr "POWER" ∉ opKeys ∧
    (calculator.calculate "POWER" 2 3 =
        .error (.unsupportedOperation (unsupportedMsg (lowerStr "POWER"))) ∧
      hasSubList (lowerStr "POWER").data
        (unsupportedMsg (lowerStr "POWER")).data = true ∧
      hasSubList "power".data
        (unsupportedMsg (lowerStr "POWER")).data = true ∧
      hasSubList "POWER".data
        (unsupportedMsg (lowerStr "POWER")).data = false) :=
  ⟨by decide, calculate_unsupported_lowercases_spec "POWER" 2 3 (by decide)⟩
